import Mathlib

/-!
Formal model of `ros/src/waypoint_updater/waypoint_updater.py`.

The node keeps the latest pose, the base route (`base_lane`), the stop-line
index (`stopline_wp_idx`), a list of 2D coordinates (`waypoints_2d`) and a
spatial index (`waypoint_tree`) built from those coordinates.  Each planning
cycle locates the route point closest to the pose, slices a forward window of
`LOOKAHEAD_WPS` points, and — when a stop constraint is active inside the
horizon — rewrites the window speeds with a square-root deceleration profile.

Real numbers model the Python floats; the spatial index is modelled by the
list of 2D points it was built from, with `treeQuery` returning the index of
the nearest point (first index on ties), the documented behaviour of the
`scipy.spatial.KDTree.query` call used by the source.
-/

namespace WaypointUpdater

/-- Constant `LOOKAHEAD_WPS = 200`, the number of waypoints published ahead. -/
def LOOKAHEAD_WPS : ℕ := 200

/-- Constant `MAX_DECEL = 0.5`. -/
def MAX_DECEL : ℝ := 0.5

/-- A 3D position, the `pose.pose.position` of a waypoint message. -/
structure Position where
  x : ℝ
  y : ℝ
  z : ℝ

/-- A route waypoint: its pose position together with its commanded linear
speed `twist.twist.linear.x`. -/
structure Waypoint where
  position : Position
  speed : ℝ

/-- Default waypoint used by the total `List.getD` lookups; every theorem
keeps its indices in range, so the default is never observed. -/
def dummyWaypoint : Waypoint := ⟨⟨0, 0, 0⟩, 0⟩

/-- The local helper `dl` of `WaypointUpdater.distance`: straight-line 3D
Euclidean distance between two positions. -/
noncomputable def dl (a b : Position) : ℝ :=
  Real.sqrt ((a.x - b.x) ^ 2 + (a.y - b.y) ^ 2 + (a.z - b.z) ^ 2)

/-- Body of the loop in `WaypointUpdater.distance`: the accumulator holds the
running sum and the current value of the (re-assigned) variable `wp1`. -/
noncomputable def distStep (waypoints : List Waypoint) (acc : ℝ × ℕ) (i : ℕ) : ℝ × ℕ :=
  (acc.1 + dl (waypoints.getD acc.2 dummyWaypoint).position
              (waypoints.getD i dummyWaypoint).position, i)

/-- Model of `WaypointUpdater.distance(waypoints, wp1, wp2)`: iterate the loop
body over `range(wp1, wp2 + 1)` starting from `dist = 0`. -/
noncomputable def distance (waypoints : List Waypoint) (wp1 wp2 : ℕ) : ℝ :=
  ((List.range' wp1 (wp2 + 1 - wp1)).foldl (distStep waypoints) (0, wp1)).1

/-- Cumulative arc length from waypoint `i` to waypoint `j`: the sum of the
successive straight-line 3D Euclidean distances between consecutive pose
positions.  `distance` is proved equal to this below. -/
noncomputable def arcLength (waypoints : List Waypoint) (i j : ℕ) : ℝ :=
  ((List.range' i (j - i)).map
    (fun k => dl (waypoints.getD k dummyWaypoint).position
                 (waypoints.getD (k + 1) dummyWaypoint).position)).sum

/-- The near-zero snap in `decelerate_waypoints`: `if vel < 1.0: vel = 0.0`. -/
noncomputable def snapVel (vel : ℝ) : ℝ := if vel < 1 then 0 else vel

/-- The local `stop_idx = max(self.stopline_wp_idx - closest_idx - 2, 0)` of
`decelerate_waypoints` (two waypoints back from the line, clamped at 0). -/
def stop_idx (stopline_wp_idx : ℤ) (closest_idx : ℕ) : ℕ :=
  (max (stopline_wp_idx - closest_idx - 2) 0).toNat

/-- The `for i, wp in enumerate(waypoints)` loop of `decelerate_waypoints`:
`i` is the running local index, and each iteration appends a fresh waypoint
carrying the input pose and the shaped speed. -/
noncomputable def decelerate_from (waypoints : List Waypoint) (closest_idx : ℕ)
    (stopline_wp_idx : ℤ) : ℕ → List Waypoint → List Waypoint
  | _, [] => []
  | i, wp :: rest =>
      { position := wp.position,
        speed := min (snapVel (Real.sqrt (2 * MAX_DECEL *
                   distance waypoints i (stop_idx stopline_wp_idx closest_idx))))
                 wp.speed } ::
      decelerate_from waypoints closest_idx stopline_wp_idx (i + 1) rest

/-- Model of `WaypointUpdater.decelerate_waypoints(waypoints, closest_idx)`
with the stop-line index passed explicitly (the source reads it from
`self.stopline_wp_idx`). -/
noncomputable def decelerate_waypoints (waypoints : List Waypoint) (closest_idx : ℕ)
    (stopline_wp_idx : ℤ) : List Waypoint :=
  decelerate_from waypoints closest_idx stopline_wp_idx 0 waypoints

/-- The slice `self.base_lane.waypoints[closest_idx:farthest_idx]` of
`generate_lane`: a non-wrapping Python slice of length at most
`LOOKAHEAD_WPS`. -/
def laneWindow (base : List Waypoint) (closest_idx : ℕ) : List Waypoint :=
  (base.drop closest_idx).take LOOKAHEAD_WPS

/-- Model of `WaypointUpdater.generate_lane` (the source line lacks a colon
after `def generate_lane(self)`; the body is embedded as written): slice the
forward window and shape it only when a stop constraint is active strictly
before `farthest_idx`. -/
noncomputable def generate_lane (base : List Waypoint) (closest_idx : ℕ)
    (stopline_wp_idx : ℤ) : List Waypoint :=
  let farthest_idx := closest_idx + LOOKAHEAD_WPS
  if stopline_wp_idx = -1 ∨ (farthest_idx : ℤ) ≤ stopline_wp_idx then
    laneWindow base closest_idx
  else
    decelerate_waypoints (laneWindow base closest_idx) closest_idx stopline_wp_idx

/-- Squared 2D Euclidean distance, the comparison key of the nearest-point
query (minimising the squared distance minimises the distance). -/
def sqDist2 (a b : ℝ × ℝ) : ℝ := (a.1 - b.1) ^ 2 + (a.2 - b.2) ^ 2

/-- Fold of the nearest-point scan: carries the best (index, squared
distance) pair and keeps the first index on ties. -/
noncomputable def queryAux (p : ℝ × ℝ) : List (ℝ × ℝ) → ℕ → ℕ × ℝ → ℕ × ℝ
  | [], _, best => best
  | c :: rest, i, best =>
      queryAux p rest (i + 1) (if sqDist2 c p < best.2 then (i, sqDist2 c p) else best)

/-- Model of `self.waypoint_tree.query([x, y], 1)[1]`: the index of the point
of the tree nearest to `p` (first such index on ties), `0` on an empty tree. -/
noncomputable def treeQuery (tree : List (ℝ × ℝ)) (p : ℝ × ℝ) : ℕ :=
  match tree with
  | [] => 0
  | c :: rest => (queryAux p rest 1 (0, sqDist2 c p)).1

/-- Model of `WaypointUpdater.get_closest_waypoint_idx` exactly as written:
the hyperplane test builds `cl_vect = np.array(closest_idx)` from the integer
index (numpy broadcasts the scalar over both components), not from
`closest_coord`, which is computed but never used. -/
noncomputable def get_closest_waypoint_idx (tree w2d : List (ℝ × ℝ)) (p : ℝ × ℝ) : ℕ :=
  let closest_idx := treeQuery tree p
  let n := w2d.length
  let prev_coord := w2d.getD ((closest_idx + n - 1) % n) (0, 0)
  let val := ((closest_idx : ℝ) - prev_coord.1) * (p.1 - (closest_idx : ℝ)) +
             ((closest_idx : ℝ) - prev_coord.2) * (p.2 - (closest_idx : ℝ))
  if 0 < val then (closest_idx + 1) % n else closest_idx

/-- Modelled from the spec: the nearest-point locator as the specification
describes it — the dot product is `(C - prev) · (P - C)` where `C` is the 2D
coordinate of the closest route point, `prev` the coordinate of its
predecessor (wrapping modulo the route length). -/
noncomputable def get_closest_waypoint_idx_spec (tree w2d : List (ℝ × ℝ)) (p : ℝ × ℝ) : ℕ :=
  let closest_idx := treeQuery tree p
  let n := w2d.length
  let closest_coord := w2d.getD closest_idx (0, 0)
  let prev_coord := w2d.getD ((closest_idx + n - 1) % n) (0, 0)
  let val := (closest_coord.1 - prev_coord.1) * (p.1 - closest_coord.1) +
             (closest_coord.2 - prev_coord.2) * (p.2 - closest_coord.2)
  if 0 < val then (closest_idx + 1) % n else closest_idx

/-- The mutable node state: latest pose (its 2D position, the only part the
planner reads), base route, stop-line index, 2D coordinate list and spatial
index, as initialised in `WaypointUpdater.__init__`. -/
structure State where
  pose : Option (ℝ × ℝ)
  base_lane : Option (List Waypoint)
  stopline_wp_idx : ℤ
  waypoints_2d : Option (List (ℝ × ℝ))
  waypoint_tree : Option (List (ℝ × ℝ))

/-- The state set up by `__init__`: no pose, no route, sentinel stop index,
no coordinate list and no tree. -/
def initState : State :=
  { pose := none, base_lane := none, stopline_wp_idx := -1,
    waypoints_2d := none, waypoint_tree := none }

/-- The list comprehension of `waypoints_cb`: the `(x, y)` coordinates of all
route waypoints. -/
def coords2d (waypoints : List Waypoint) : List (ℝ × ℝ) :=
  waypoints.map (fun wp => (wp.position.x, wp.position.y))

/-- Models the scipy `KDTree` constructor invoked by `waypoints_cb`: it
requires a nonempty two-dimensional data array, so construction raises on a
zero-length coordinate list (no tree is produced) and otherwise builds the
index over exactly the given points. -/
def kdtree_build (coords : List (ℝ × ℝ)) : Option (List (ℝ × ℝ)) :=
  match coords with
  | [] => none
  | c :: rest => some (c :: rest)

/-- Model of `WaypointUpdater.waypoints_cb`: store the route, and when
`waypoints_2d` is falsy (`None` or empty) assign the 2D list and then the
tree; when the tree constructor raises (zero-length data) the
`waypoint_tree` assignment never executes, so the tree keeps its previous
value. -/
def waypoints_cb (waypoints : List Waypoint) (s : State) : State :=
  match s.waypoints_2d with
  | none =>
      (match kdtree_build (coords2d waypoints) with
       | some t =>
          { s with base_lane := some waypoints,
                   waypoints_2d := some (coords2d waypoints),
                   waypoint_tree := some t }
       | none =>
          { s with base_lane := some waypoints,
                   waypoints_2d := some (coords2d waypoints) })
  | some [] =>
      (match kdtree_build (coords2d waypoints) with
       | some t =>
          { s with base_lane := some waypoints,
                   waypoints_2d := some (coords2d waypoints),
                   waypoint_tree := some t }
       | none =>
          { s with base_lane := some waypoints,
                   waypoints_2d := some (coords2d waypoints) })
  | some (_ :: _) => { s with base_lane := some waypoints }

/-- Model of `WaypointUpdater.pose_cb`: store the latest pose. -/
def pose_cb (p : ℝ × ℝ) (s : State) : State := { s with pose := some p }

/-- Model of `WaypointUpdater.traffic_cb`: store the latest stop-line index. -/
def traffic_cb (msg : ℤ) (s : State) : State := { s with stopline_wp_idx := msg }

/-- The nearest-point locator read off the node state, as `loop` invokes it:
available only once pose, tree and coordinate list are all present. -/
noncomputable def get_closest_waypoint_idx_st (s : State) : Option ℕ :=
  match s.pose, s.waypoint_tree, s.waypoints_2d with
  | some p, some tree, some w2d => some (get_closest_waypoint_idx tree w2d p)
  | _, _, _ => none

/-- The readiness guard of `loop`: `if self.pose and self.base_lane and
self.waypoint_tree` — each stored object is truthy exactly when present. -/
def ready (s : State) : Prop :=
  s.pose ≠ none ∧ s.base_lane ≠ none ∧ s.waypoint_tree ≠ none

/-- One pass of the `loop` body: when the inputs are present, locate the
closest waypoint and publish the lane of `generate_lane`; before pose, route
and tree are all available nothing is emitted (the 2D list is assigned
immediately before the tree in `waypoints_cb`, so it is present whenever the
tree is). -/
noncomputable def planning_cycle (s : State) : Option (List Waypoint) :=
  match get_closest_waypoint_idx_st s, s.base_lane with
  | some c, some base => some (generate_lane base c s.stopline_wp_idx)
  | _, _ => none

lemma dl_nonneg (a b : Position) : 0 ≤ dl a b := Real.sqrt_nonneg _

lemma dl_self (a : Position) : dl a a = 0 := by
  simp [dl]

lemma distStep_foldl (w : List Waypoint) :
    ∀ (n m : ℕ) (c : ℝ),
      (List.range' (m + 1) n).foldl (distStep w) (c, m) =
        (c + ((List.range' m n).map
          (fun k => dl (w.getD k dummyWaypoint).position
                       (w.getD (k + 1) dummyWaypoint).position)).sum, m + n) := by
  intro n
  induction n with
  | zero => intro m c; simp
  | succ n ih =>
      intro m c
      simp only [List.range'_succ, List.foldl_cons, List.map_cons, List.sum_cons, distStep]
      rw [ih (m + 1)]
      rw [Prod.mk.injEq]
      constructor
      · ring
      · omega

lemma distance_eq_arcLength (w : List Waypoint) (i j : ℕ) :
    distance w i j = arcLength w i j := by
  rcases le_or_lt i j with h | h
  · have hj : j + 1 - i = (j - i) + 1 := by omega
    rw [distance, hj, List.range'_succ, List.foldl_cons]
    have h1 : distStep w ((0 : ℝ), i) i = (0, i) := by
      simp [distStep, dl_self]
    rw [h1, distStep_foldl]
    simp [arcLength]
  · have hij : j + 1 - i = 0 := by omega
    have hji : j - i = 0 := by omega
    rw [distance, arcLength, hij, hji]
    simp

lemma arcLength_zero_of_le (w : List Waypoint) {i j : ℕ} (h : j ≤ i) :
    arcLength w i j = 0 := by
  rw [arcLength, Nat.sub_eq_zero_of_le h]
  simp

lemma arcLength_nonneg (w : List Waypoint) (i j : ℕ) : 0 ≤ arcLength w i j := by
  apply List.sum_nonneg
  intro x hx
  simp only [List.mem_map] at hx
  obtain ⟨k, _, rfl⟩ := hx
  exact dl_nonneg _ _

lemma snapVel_le_self {v : ℝ} (hv : 0 ≤ v) : snapVel v ≤ v := by
  rw [snapVel]
  split
  · exact hv
  · exact le_rfl

lemma snapVel_zero : snapVel 0 = 0 := by
  rw [snapVel, if_pos]
  norm_num

lemma decelerate_from_getElem? (w : List Waypoint) (c : ℕ) (s : ℤ) :
    ∀ (l : List Waypoint) (i k : ℕ),
      (decelerate_from w c s i l)[k]? =
        l[k]?.map (fun wp =>
          { position := wp.position,
            speed := min (snapVel (Real.sqrt (2 * MAX_DECEL *
                       distance w (i + k) (stop_idx s c)))) wp.speed }) := by
  intro l
  induction l with
  | nil => intro i k; simp [decelerate_from]
  | cons a t ih =>
      intro i k
      cases k with
      | zero => simp [decelerate_from]
      | succ k' =>
          have harith : i + (k' + 1) = (i + 1) + k' := by omega
          simp only [decelerate_from, List.getElem?_cons_succ, harith]
          exact ih (i + 1) k'

lemma decelerate_getElem? (w : List Waypoint) (c : ℕ) (s : ℤ) (k : ℕ)
    (hk : k < w.length) :
    (decelerate_waypoints w c s)[k]? =
      some { position := (w.getD k dummyWaypoint).position,
             speed := min (snapVel (Real.sqrt (2 * MAX_DECEL *
                        distance w k (stop_idx s c)))) (w.getD k dummyWaypoint).speed } := by
  have h := decelerate_from_getElem? w c s w 0 k
  rw [decelerate_waypoints, h, List.getElem?_eq_getElem hk,
    List.getD_eq_getElem _ _ hk]
  simp

lemma decelerate_getD (w : List Waypoint) (c : ℕ) (s : ℤ) (k : ℕ)
    (hk : k < w.length) :
    (decelerate_waypoints w c s).getD k dummyWaypoint =
      { position := (w.getD k dummyWaypoint).position,
        speed := min (snapVel (Real.sqrt (2 * MAX_DECEL *
                   distance w k (stop_idx s c)))) (w.getD k dummyWaypoint).speed } := by
  rw [List.getD_eq_getElem?_getD, decelerate_getElem? w c s k hk]
  rfl

lemma decelerate_speed_zero (w : List Waypoint) (c : ℕ) (s : ℤ) (k : ℕ)
    (hk : k < w.length) (hstop : stop_idx s c ≤ k)
    (hnn : 0 ≤ (w.getD k dummyWaypoint).speed) :
    ((decelerate_waypoints w c s).getD k dummyWaypoint).speed = 0 := by
  rw [decelerate_getD w c s k hk]
  show min (snapVel (Real.sqrt (2 * MAX_DECEL * distance w k (stop_idx s c))))
      ((w.getD k dummyWaypoint).speed) = 0
  have hd : distance w k (stop_idx s c) = 0 := by
    rw [distance_eq_arcLength]
    exact arcLength_zero_of_le w hstop
  rw [hd, mul_zero, Real.sqrt_zero, snapVel_zero]
  exact min_eq_left hnn

lemma sqrt_of_sq (a b : ℝ) (hb : 0 ≤ b) (h : a = b ^ 2) : Real.sqrt a = b := by
  rw [h]
  exact Real.sqrt_sq hb

lemma dl_eval (x1 y1 z1 x2 y2 z2 : ℝ) :
    dl ⟨x1, y1, z1⟩ ⟨x2, y2, z2⟩ =
      Real.sqrt ((x1 - x2) ^ 2 + (y1 - y2) ^ 2 + (z1 - z2) ^ 2) := rfl

/-- C3: every speed emitted by the deceleration shaper is at most
`min(sqrt(2 * MAX_DECEL * dist), nominal speed)`, and the speed emitted at
the local stop index `max(stopline - closest - 2, 0)` is exactly `0.0`
(there the accumulated distance is zero, so the computed `vel` is `0 < 1.0`
and is snapped). -/
theorem claim3_decel_speed_bounds (w : List Waypoint) (c : ℕ) (s : ℤ) (i : ℕ)
    (hi : i < w.length) (hstop : stop_idx s c < w.length)
    (hnn : 0 ≤ (w.getD (stop_idx s c) dummyWaypoint).speed) :
    ((decelerate_waypoints w c s).getD i dummyWaypoint).speed ≤
      min (Real.sqrt (2 * MAX_DECEL * distance w i (stop_idx s c)))
          ((w.getD i dummyWaypoint).speed) ∧
    ((decelerate_waypoints w c s).getD (stop_idx s c) dummyWaypoint).speed = 0 := by
  constructor
  · rw [decelerate_getD w c s i hi]
    exact min_le_min (snapVel_le_self (Real.sqrt_nonneg _)) le_rfl
  · exact decelerate_speed_zero w c s _ hstop le_rfl hnn

/-- Witness for C3 on a two-point window with stop constraint at route
index 2 (local stop index 0) and nominal speeds 10. -/
theorem claim3_witness :
    ((decelerate_waypoints [⟨⟨0, 0, 0⟩, 10⟩, ⟨⟨4, 0, 0⟩, 10⟩] 0 2).getD 1
        dummyWaypoint).speed ≤
      min (Real.sqrt (2 * MAX_DECEL *
             distance [⟨⟨0, 0, 0⟩, 10⟩, ⟨⟨4, 0, 0⟩, 10⟩] 1 (stop_idx 2 0)))
          (([⟨⟨0, 0, 0⟩, 10⟩, ⟨⟨4, 0, 0⟩, 10⟩].getD 1 dummyWaypoint).speed) ∧
    ((decelerate_waypoints [⟨⟨0, 0, 0⟩, 10⟩, ⟨⟨4, 0, 0⟩, 10⟩] 0 2).getD (stop_idx 2 0)
        dummyWaypoint).speed = 0 :=
  claim3_decel_speed_bounds [⟨⟨0, 0, 0⟩, 10⟩, ⟨⟨4, 0, 0⟩, 10⟩] 0 2 1
    (by decide) (by decide) (by show (0 : ℝ) ≤ 10; norm_num)

/-- C9: at every local index at or past the clamped stop index, the
accumulated distance is zero, so the computed velocity is zero and the
emitted speed is exactly zero. -/
theorem claim9_rest_at_and_past_stop (w : List Waypoint) (c : ℕ) (s : ℤ) (i : ℕ)
    (hi : i < w.length) (hstop : stop_idx s c ≤ i)
    (hnn : 0 ≤ (w.getD i dummyWaypoint).speed) :
    distance w i (stop_idx s c) = 0 ∧
    Real.sqrt (2 * MAX_DECEL * distance w i (stop_idx s c)) = 0 ∧
    ((decelerate_waypoints w c s).getD i dummyWaypoint).speed = 0 := by
  have hd : distance w i (stop_idx s c) = 0 := by
    rw [distance_eq_arcLength]
    exact arcLength_zero_of_le w hstop
  refine ⟨hd, ?_, decelerate_speed_zero w c s i hi hstop hnn⟩
  rw [hd, mul_zero, Real.sqrt_zero]

/-- Witness for C9: a stop constraint behind the vehicle (stop index 0 with
closest index 0 clamps the local stop to 0) commands rest at index 0. -/
theorem claim9_witness :
    distance [⟨⟨0, 0, 0⟩, 10⟩] 0 (stop_idx 0 0) = 0 ∧
    Real.sqrt (2 * MAX_DECEL * distance [⟨⟨0, 0, 0⟩, 10⟩] 0 (stop_idx 0 0)) = 0 ∧
    ((decelerate_waypoints [⟨⟨0, 0, 0⟩, 10⟩] 0 0).getD 0 dummyWaypoint).speed = 0 :=
  claim9_rest_at_and_past_stop [⟨⟨0, 0, 0⟩, 10⟩] 0 0 0
    (by decide) (by decide) (by show (0 : ℝ) ≤ 10; norm_num)

/-- C2 amended: the distance fed into the velocity formula at local index
`i` is the cumulative arc length from `window[i]` to `window[stopLocal]`
(zero once `i` is at or past the stop), not a constant anchored at
`window[0]`. -/
theorem claim2_amended_distance_from_current_point (w : List Waypoint) (c : ℕ)
    (s : ℤ) (i : ℕ) (hi : i < w.length) :
    ((decelerate_waypoints w c s).getD i dummyWaypoint).speed =
      min (snapVel (Real.sqrt (2 * MAX_DECEL * arcLength w i (stop_idx s c))))
          ((w.getD i dummyWaypoint).speed) := by
  rw [decelerate_getD w c s i hi, distance_eq_arcLength]

/-- Concrete route for C2: three points on the x-axis at 0, 9 and 25, all
with nominal speed 100. -/
def route2 : List Waypoint := [⟨⟨0, 0, 0⟩, 100⟩, ⟨⟨9, 0, 0⟩, 100⟩, ⟨⟨25, 0, 0⟩, 100⟩]

/-- Counterexample for C2: with closest index 0 and stop-line index 4 the
local stop index is 2; at local index 1 the shaper emits speed 4 =
sqrt(2 * 0.5 * 16) (distance measured from point 1 to the stop), while the
claim's window-start-anchored distance 25 would give speed 5. -/
theorem claim2_counterexample :
    ((decelerate_waypoints route2 0 4).getD 1 dummyWaypoint).speed = 4 ∧
    min (snapVel (Real.sqrt (2 * MAX_DECEL * distance route2 0 (stop_idx 4 0))))
        ((route2.getD 1 dummyWaypoint).speed) = 5 ∧
    (4 : ℝ) ≠ 5 := by
  have hs : stop_idx 4 0 = 2 := by decide
  have e0 : (route2.getD 0 dummyWaypoint).position = ⟨0, 0, 0⟩ := rfl
  have e1 : (route2.getD 1 dummyWaypoint).position = ⟨9, 0, 0⟩ := rfl
  have e2 : (route2.getD 2 dummyWaypoint).position = ⟨25, 0, 0⟩ := rfl
  have d12 : dl ⟨9, 0, 0⟩ ⟨25, 0, 0⟩ = 16 := by
    rw [dl_eval]
    apply sqrt_of_sq _ _ (by norm_num)
    norm_num
  have d01 : dl ⟨0, 0, 0⟩ ⟨9, 0, 0⟩ = 9 := by
    rw [dl_eval]
    apply sqrt_of_sq _ _ (by norm_num)
    norm_num
  have hdist1 : distance route2 1 2 = 16 := by
    rw [distance_eq_arcLength]
    have hr : List.range' 1 (2 - 1) = [1] := rfl
    rw [arcLength, hr]
    simp only [List.map_cons, List.map_nil, List.sum_cons, List.sum_nil, add_zero]
    rw [e1, e2, d12]
  have hdist0 : distance route2 0 2 = 25 := by
    rw [distance_eq_arcLength]
    have hr : List.range' 0 (2 - 0) = [0, 1] := rfl
    rw [arcLength, hr]
    simp only [List.map_cons, List.map_nil, List.sum_cons, List.sum_nil, add_zero]
    rw [e0, e1, e2, d01, d12]
    norm_num
  have hv4 : Real.sqrt (2 * MAX_DECEL * 16) = 4 := by
    apply sqrt_of_sq _ _ (by norm_num)
    norm_num [MAX_DECEL]
  have hv5 : Real.sqrt (2 * MAX_DECEL * 25) = 5 := by
    apply sqrt_of_sq _ _ (by norm_num)
    norm_num [MAX_DECEL]
  have hsp : (route2.getD 1 dummyWaypoint).speed = 100 := rfl
  refine ⟨?_, ?_, by norm_num⟩
  · rw [decelerate_getD route2 0 4 1 (by decide), hs, hdist1, hv4, hsp]
    show min (snapVel 4) 100 = 4
    rw [snapVel, if_neg (by norm_num)]
    exact min_eq_left (by norm_num)
  · rw [hs, hdist0, hv5, hsp]
    rw [snapVel, if_neg (by norm_num)]
    exact min_eq_left (by norm_num)

/-- Witness for the amended C2 on the same route: at local index 0 the
emitted speed matches the formula with the arc length taken from point 0. -/
theorem claim2_amended_witness :
    ((decelerate_waypoints route2 0 4).getD 0 dummyWaypoint).speed =
      min (snapVel (Real.sqrt (2 * MAX_DECEL * arcLength route2 0 (stop_idx 4 0))))
          ((route2.getD 0 dummyWaypoint).speed) :=
  claim2_amended_distance_from_current_point route2 0 4 0 (by decide)

/-- C4: when the stop-line index is the sentinel `-1`, or lies at or beyond
`closest_idx + LOOKAHEAD_WPS`, the emitted lane is the unmodified window:
the deceleration shaper is not applied, and every emitted point is the route
point at offset `closest_idx + i` with its nominal speed. -/
theorem claim4_no_constraint_emits_nominal (base : List Waypoint) (closest_idx : ℕ)
    (stopline_wp_idx : ℤ) (i : ℕ)
    (h : stopline_wp_idx = -1 ∨
         ((closest_idx + LOOKAHEAD_WPS : ℕ) : ℤ) ≤ stopline_wp_idx)
    (hi : i < LOOKAHEAD_WPS) :
    generate_lane base closest_idx stopline_wp_idx = laneWindow base closest_idx ∧
    (generate_lane base closest_idx stopline_wp_idx)[i]? = base[closest_idx + i]? := by
  have hg : generate_lane base closest_idx stopline_wp_idx =
      laneWindow base closest_idx := by
    simp only [generate_lane]
    rw [if_pos h]
  refine ⟨hg, ?_⟩
  rw [hg, laneWindow, List.getElem?_take, if_pos hi, List.getElem?_drop]

/-- Witness for C4: with the sentinel stop index `-1` the single-point route
is emitted unchanged. -/
theorem claim4_witness :
    generate_lane [⟨⟨0, 0, 0⟩, 7⟩] 0 (-1) = laneWindow [⟨⟨0, 0, 0⟩, 7⟩] 0 ∧
    (generate_lane [⟨⟨0, 0, 0⟩, 7⟩] 0 (-1))[0]? =
      ([⟨⟨0, 0, 0⟩, 7⟩] : List Waypoint)[0 + 0]? :=
  claim4_no_constraint_emits_nominal [⟨⟨0, 0, 0⟩, 7⟩] 0 (-1) 0
    (Or.inl rfl) (by decide)

/-- C5: the extracted window is the non-wrapping slice
`base[closest_idx : closest_idx + LOOKAHEAD_WPS]`: its length is
`min LOOKAHEAD_WPS (N - closest_idx)` and its `i`-th entry is the route
entry at `closest_idx + i` — truncation at the route end, never wraparound. -/
theorem claim5_window_is_truncated_slice (base : List Waypoint) (closest_idx i : ℕ)
    (_hc : closest_idx < base.length) (hi : i < LOOKAHEAD_WPS) :
    (laneWindow base closest_idx).length =
      min LOOKAHEAD_WPS (base.length - closest_idx) ∧
    (laneWindow base closest_idx)[i]? = base[closest_idx + i]? := by
  constructor
  · rw [laneWindow, List.length_take, List.length_drop]
  · rw [laneWindow, List.getElem?_take, if_pos hi, List.getElem?_drop]

/-- Witness for C5 on a one-point route with closest index 0. -/
theorem claim5_witness :
    (laneWindow [⟨⟨0, 0, 0⟩, 7⟩] 0).length =
      min LOOKAHEAD_WPS (([⟨⟨0, 0, 0⟩, 7⟩] : List Waypoint).length - 0) ∧
    (laneWindow [⟨⟨0, 0, 0⟩, 7⟩] 0)[0]? =
      ([⟨⟨0, 0, 0⟩, 7⟩] : List Waypoint)[0 + 0]? :=
  claim5_window_is_truncated_slice [⟨⟨0, 0, 0⟩, 7⟩] 0 0 (by decide) (by decide)

/-- Concrete route for C6: three points on the x-axis, nominal speed 10. -/
def route6 : List Waypoint := [⟨⟨0, 0, 0⟩, 10⟩, ⟨⟨1, 0, 0⟩, 10⟩, ⟨⟨2, 0, 0⟩, 10⟩]

/-- Counterexample for C6: the out-of-range stop index `-5` is not treated
as "no constraint" — the planning cycle applies the deceleration shaper and
emits speed 0 at the first window point instead of the nominal 10. -/
theorem claim6_counterexample :
    ((generate_lane route6 0 (-5)).getD 0 dummyWaypoint).speed = 0 ∧
    (route6.getD 0 dummyWaypoint).speed = 10 ∧
    (0 : ℝ) ≠ 10 := by
  have hwin : laneWindow route6 0 = route6 := by
    rw [laneWindow, List.drop_zero]
    exact List.take_of_length_le (by norm_num [LOOKAHEAD_WPS, route6])
  have hbranch : generate_lane route6 0 (-5) =
      decelerate_waypoints (laneWindow route6 0) 0 (-5) := by
    simp only [generate_lane]
    rw [if_neg]
    rintro (h | h) <;> norm_num [LOOKAHEAD_WPS] at h
  refine ⟨?_, rfl, by norm_num⟩
  rw [hbranch, hwin]
  exact decelerate_speed_zero route6 0 (-5) 0 (by decide) (by decide)
    (by show (0 : ℝ) ≤ 10; norm_num)

/-- C6 amended: only the sentinel `-1` (or an index at or beyond the
lookahead horizon) is treated as "no constraint"; any other negative
stop-line index reaches the deceleration shaper with the local stop index
clamped to 0, so every emitted window speed is 0. -/
theorem claim6_amended_negative_index_decelerates (base : List Waypoint) (c : ℕ)
    (s : ℤ) (i : ℕ) (hneg : s < 0) (hsent : s ≠ -1)
    (hi : i < (laneWindow base c).length)
    (hnn : 0 ≤ ((laneWindow base c).getD i dummyWaypoint).speed) :
    generate_lane base c s = decelerate_waypoints (laneWindow base c) c s ∧
    stop_idx s c = 0 ∧
    ((generate_lane base c s).getD i dummyWaypoint).speed = 0 := by
  have hbranch : generate_lane base c s =
      decelerate_waypoints (laneWindow base c) c s := by
    simp only [generate_lane]
    rw [if_neg]
    rintro (h | h)
    · exact hsent h
    · omega
  have hstop : stop_idx s c = 0 := by
    rw [stop_idx]
    omega
  refine ⟨hbranch, hstop, ?_⟩
  rw [hbranch]
  exact decelerate_speed_zero (laneWindow base c) c s i hi
    (by rw [hstop]; exact Nat.zero_le i) hnn

/-- Witness for the amended C6: stop index `-5` with closest index 0 on the
three-point route commands speed 0 at local index 1. -/
theorem claim6_amended_witness :
    generate_lane route6 0 (-5) = decelerate_waypoints (laneWindow route6 0) 0 (-5) ∧
    stop_idx (-5) 0 = 0 ∧
    ((generate_lane route6 0 (-5)).getD 1 dummyWaypoint).speed = 0 :=
  claim6_amended_negative_index_decelerates route6 0 (-5) 1
    (by norm_num) (by norm_num) (by decide) (by show (0 : ℝ) ≤ 10; norm_num)

/-- C7: loading a zero-length route fails at route load — the spatial-index
constructor rejects the empty coordinate list, so on a node without a
previously built index no tree is ever assigned — and the node never
reaches READY: once any pose arrives the readiness guard still fails and no
planning cycle emits a window, rather than silently proceeding with an
empty spatial index. -/
theorem claim7_empty_route_never_ready (s : State) (p : ℝ × ℝ)
    (h2d : s.waypoints_2d = none) (ht : s.waypoint_tree = none) :
    kdtree_build (coords2d []) = none ∧
    (waypoints_cb [] s).waypoint_tree = none ∧
    ¬ ready (pose_cb p (waypoints_cb [] s)) ∧
    planning_cycle (pose_cb p (waypoints_cb [] s)) = none := by
  have hw : (waypoints_cb [] s).waypoint_tree = none := by
    simp [waypoints_cb, h2d, coords2d, kdtree_build, ht]
  have hg : get_closest_waypoint_idx_st (pose_cb p (waypoints_cb [] s)) = none := by
    simp [get_closest_waypoint_idx_st, pose_cb, waypoints_cb, h2d, ht,
      coords2d, kdtree_build]
  refine ⟨rfl, hw, ?_, ?_⟩
  · intro hr
    exact hr.2.2 (by simpa [pose_cb] using hw)
  · simp [planning_cycle, hg]

/-- Witness for C7 at the freshly initialised node state with pose (0,0). -/
theorem claim7_witness :
    kdtree_build (coords2d []) = none ∧
    (waypoints_cb [] initState).waypoint_tree = none ∧
    ¬ ready (pose_cb ((0 : ℝ), (0 : ℝ)) (waypoints_cb [] initState)) ∧
    planning_cycle (pose_cb ((0 : ℝ), (0 : ℝ)) (waypoints_cb [] initState)) = none :=
  claim7_empty_route_never_ready initState ((0 : ℝ), (0 : ℝ)) rfl rfl

/-- C8: route loading is idempotent — a second `waypoints_cb` with the same
route leaves the whole state (spatial index included) unchanged, and the
nearest-point locator answers identically for any fixed pose before and
after the redundant load. -/
theorem claim8_route_load_idempotent (w : List Waypoint) (s : State) (p : ℝ × ℝ) :
    waypoints_cb w (waypoints_cb w s) = waypoints_cb w s ∧
    get_closest_waypoint_idx_st (pose_cb p (waypoints_cb w (waypoints_cb w s))) =
      get_closest_waypoint_idx_st (pose_cb p (waypoints_cb w s)) := by
  have h : waypoints_cb w (waypoints_cb w s) = waypoints_cb w s := by
    rcases s with ⟨sp, sb, ss, s2d, st⟩
    match s2d with
    | none =>
        cases w with
        | nil => simp [waypoints_cb, coords2d, kdtree_build]
        | cons b t => simp [waypoints_cb, coords2d, kdtree_build]
    | some [] =>
        cases w with
        | nil => simp [waypoints_cb, coords2d, kdtree_build]
        | cons b t => simp [waypoints_cb, coords2d, kdtree_build]
    | some (a :: l) => simp [waypoints_cb]
  exact ⟨h, by rw [h]⟩

/-- Concrete 2D coordinate list for C1: route points (0,0), (10,0), (20,0). -/
def route1 : List (ℝ × ℝ) := [(0, 0), (10, 0), (20, 0)]

/-- C1 (code bug): at pose (9,0) the nearest route point is index 1 with
coordinate (10,0); the dot product the spec describes, (C - prev)·(P - C) =
(10,0)·(-1,0) = -10, is not positive, so the locator should return 1 — but
the source builds `cl_vect = np.array(closest_idx)` from the integer index
instead of `closest_coord` (which it computes and never uses), its broadcast
dot product (1-0)(9-1) + (1-0)(0-1) = 7 is positive, and 2 is returned. -/
theorem claim1_locator_dot_product_uses_index :
    get_closest_waypoint_idx route1 route1 ((9 : ℝ), (0 : ℝ)) = 2 ∧
    get_closest_waypoint_idx_spec route1 route1 ((9 : ℝ), (0 : ℝ)) = 1 := by
  have hq : treeQuery route1 ((9 : ℝ), (0 : ℝ)) = 1 := by
    norm_num [treeQuery, route1, queryAux, sqDist2]
  constructor
  · simp only [get_closest_waypoint_idx]
    rw [hq]
    norm_num [route1, List.getD_cons_zero, List.getD_cons_succ]
  · simp only [get_closest_waypoint_idx_spec]
    rw [hq]
    norm_num [route1, List.getD_cons_zero, List.getD_cons_succ]

end WaypointUpdater
